import Mathlib

/-!
Verification of the client session/context management subsystem of
`ray/python/ray/util/client/__init__.py` (class `_ClientContext`, the
module-level registry `_all_contexts` and `_default_context`, the
`ManagedContext` guard and the `RayAPIStub` facade).

The Python code is shallowly embedded: each `_ClientContext` object is a
`CtxData` record stored in a heap `Nat → CtxData` indexed by object identity,
the module-global state (registry, default context, client-mode flag and the
thread-local active handler of the thread under consideration) is a `World`,
and each Python method becomes a Lean function on these records.  External
collaborators (the gRPC `Worker` transport, the embedded server, the
serializer registration) are represented by an environment `ConnectEnv` that
supplies the outcome of each collaborator call.
-/

deriving instance DecidableEq for Except

namespace RayClient

/-- Error raised by `_check_versions`: either the Python minor versions differ
between client and server, or the protocol version strings differ. -/
inductive VersionError where
  | pythonMismatch
  | protocolMismatch
deriving DecidableEq

/-- Exceptions that can propagate out of the embedded code.  `alreadyConnected`
is the `Exception("ray.init() called, but ray client is already connected")`
raised by `_ClientContext.connect`; `doubleInit` is the `Exception("Trying to
start two instances of ray via client")` raised by `_ClientContext.init`;
`version e` wraps the `RuntimeError` of `_check_versions`; `collaborator n`
stands for an opaque exception raised by an external collaborator (transport
construction, `_server_init`, `connection_info`, serializer registration,
`init_and_serve`). -/
inductive Err where
  | alreadyConnected
  | doubleInit
  | version (e : VersionError)
  | collaborator (code : Nat)
deriving DecidableEq

/-- The transport collaborator `ray.util.client.worker.Worker`, reduced to the
two observables the context layer reads: `_client_id` and `is_connected()`. -/
structure Worker where
  client_id : String
  connected : Bool
deriving DecidableEq

/-- Connection-info dictionary returned by `Worker.connection_info()`, with the
keys read by this subsystem (`_check_versions` and `ManagedContext.__init__`). -/
structure ConnInfo where
  dashboard_url : Option String
  python_version : String
  ray_version : String
  ray_commit : String
  protocol_version : String
  num_clients : Nat
deriving DecidableEq

/-- The mutable fields of a `_ClientContext` object (`__init__`, lines 21-31).
`conn_info = none` models the initial empty dict `{}`.  `api_worker` is the
`self.api.worker` reference assigned during `connect`. -/
structure CtxData where
  client_worker : Option Worker
  client_id : Option String
  conn_info : Option ConnInfo
  server : Option Unit
  connected_with_init : Bool
  inside_client_test : Bool
  api_worker : Option Worker
deriving DecidableEq

/-- A freshly constructed `_ClientContext()`. -/
def initCtxData : CtxData :=
  { client_worker := none
    client_id := none
    conn_info := none
    server := none
    connected_with_init := false
    inside_client_test := false
    api_worker := none }

/-- `_ClientContext.disconnect` (lines 129-134): close the worker if present,
then set `client_worker` to `None`.  Note that `_client_id` is deliberately
not cleared (comment at lines 25-27: it stays available after shutdown). -/
def ctxDisconnect (d : CtxData) : CtxData :=
  { d with client_worker := none }

/-- Whether `disconnect` invokes `close()` on the transport handle: exactly
when a worker handle is present (`if self.client_worker is not None`). -/
def ctxCloseCalled (d : CtxData) : Bool :=
  d.client_worker.isSome

/-- `_ClientContext.shutdown` (lines 180-187): disconnect, then stop the
embedded server if one was started. -/
def ctxShutdown (d : CtxData) : CtxData :=
  let d1 := ctxDisconnect d
  match d1.server with
  | none => d1
  | some _ => { d1 with server := none }

/-- `_ClientContext.is_connected` (lines 164-167). -/
def ctxIsConnected (d : CtxData) : Bool :=
  match d.client_worker with
  | none => false
  | some w => w.connected

/-- `CURRENT_PROTOCOL_VERSION` (line 17). -/
def CURRENT_PROTOCOL_VERSION : String := "2021-09-02"

/-- Python `s.startswith(pre)`: `pre` is a character-wise prefix of `s`. -/
def pyStartsWith (s pre : String) : Bool :=
  pre.toList.isPrefixOf s.toList

/-- First half of `_ClientContext._check_versions` (lines 110-119): the local
`major.minor` must be a prefix of the peer-reported `python_version`; on
mismatch, warn if `ignore_version` or the `RAY_IGNORE_VERSION_MISMATCH`
environment override is set, otherwise raise. -/
def check_python_version (python_version local_major_minor : String)
    (ignore_version env_override : Bool) : Except VersionError Unit :=
  if !(pyStartsWith python_version local_major_minor) then
    if ignore_version || env_override then Except.ok () else Except.error .pythonMismatch
  else Except.ok ()

/-- Second half of `_ClientContext._check_versions` (lines 120-127): the fixed
protocol string must equal the peer-reported `protocol_version` exactly, under
the same override rule. -/
def check_protocol_version (protocol_version : String)
    (ignore_version env_override : Bool) : Except VersionError Unit :=
  if CURRENT_PROTOCOL_VERSION ≠ protocol_version then
    if ignore_version || env_override then Except.ok () else Except.error .protocolMismatch
  else Except.ok ()

/-- `_ClientContext._check_versions` (lines 108-127): the python check runs
first; if it only warns (or passes), control falls through to the protocol
check. -/
def check_versions (info : ConnInfo) (local_major_minor : String)
    (ignore_version env_override : Bool) : Except VersionError Unit := do
  check_python_version info.python_version local_major_minor ignore_version env_override
  check_protocol_version info.protocol_version ignore_version env_override

/-- Outcomes of the external collaborator calls made during
`_ClientContext.connect`, plus the ambient facts read by `_check_versions`
(the local interpreter version and the presence of the environment
override). -/
structure ConnectEnv where
  worker : Except Err Worker
  server_init : Except Err Unit
  conn_info : Except Err ConnInfo
  serializers : Except Err Unit
  local_major_minor : String
  env_override : Bool

/-- Result of `_ClientContext.connect`: the returned value or raised
exception, the context state after the call, whether
`_explicitly_enable_client_mode()` was invoked, and whether the rollback
`self.disconnect()` in the `except` block was invoked. -/
structure ConnectOut where
  result : Except Err (Option ConnInfo)
  ctx : CtxData
  enabledClientMode : Bool
  rolledBack : Bool
deriving DecidableEq

/-- `_ClientContext.connect` (lines 33-95).  The already-connected check comes
first; the init short-circuit is a bare `return` (returning `None`, modelled as
`Option.none`).  Then client mode is enabled (unless inside a client test), the
worker is constructed, `_client_id` and `api.worker` are assigned, the server
init is pushed, connection info pulled, versions checked and serializers
registered; any exception in those steps triggers `self.disconnect()` before
re-raising.  The `namespace`/`job_config` handling (lines 70-78) only mutates
the job config passed to the collaborator and logs a warning, so it has no
effect on the embedded state. -/
def ctxConnect (d : CtxData) (env : ConnectEnv) (ignore_version : Bool) : ConnectOut :=
  match d.client_worker with
  | some _ =>
    if d.connected_with_init then ⟨Except.ok none, d, false, false⟩
    else ⟨Except.error .alreadyConnected, d, false, false⟩
  | none =>
    let enabled := !d.inside_client_test
    match env.worker with
    | Except.error e => ⟨Except.error e, ctxDisconnect d, enabled, true⟩
    | Except.ok wk =>
      let d1 := { d with client_worker := some wk
                         client_id := some wk.client_id
                         api_worker := some wk }
      match env.server_init with
      | Except.error e => ⟨Except.error e, ctxDisconnect d1, enabled, true⟩
      | Except.ok _ =>
        match env.conn_info with
        | Except.error e => ⟨Except.error e, ctxDisconnect d1, enabled, true⟩
        | Except.ok info =>
          let d2 := { d1 with conn_info := some info }
          match check_versions info env.local_major_minor ignore_version env.env_override with
          | Except.error ve => ⟨Except.error (.version ve), ctxDisconnect d2, enabled, true⟩
          | Except.ok _ =>
            match env.serializers with
            | Except.error e => ⟨Except.error e, ctxDisconnect d2, enabled, true⟩
            | Except.ok _ => ⟨Except.ok (some info), d2, enabled, false⟩

/-- Possible results of `_ClientContext.__getattr__` (lines 150-162):
the stored `_client_id` (for key `"id"`), the stored `client_worker` (for key
`"worker"`), a forwarded attribute of `self.api`, the `lambda: False` thunk,
or the `Exception("Ray Client is not connected. ...")`. -/
inductive GetattrResult where
  | idVal (v : Option String)
  | workerVal (v : Option Worker)
  | apiAttr (key : String)
  | falseThunk
  | notConnectedError
deriving DecidableEq

/-- `_ClientContext.__getattr__` (lines 150-162). -/
def ctxGetattr (d : CtxData) (key : String) : GetattrResult :=
  if key = "id" then .idVal d.client_id
  else if key = "worker" then .workerVal d.client_worker
  else if ctxIsConnected d then .apiAttr key
  else if key = "is_initialized" ∨ key = "_internal_kv_initialized" then .falseThunk
  else .notConnectedError

/-- Object identity of a `_ClientContext` in the heap. -/
abbrev CtxId := Nat

/-- Keys of `_all_contexts`: the `.id` attribute, which is the context's
`_client_id` and can be `None`. -/
abbrev RegKey := Option String

/-- The `_all_contexts` dict, as an insertion-ordered association list. -/
abbrev Registry := List (RegKey × CtxId)

/-- Python dict assignment `_all_contexts[k] = c`: update in place if the key
exists, otherwise append. -/
def registryInsert (k : RegKey) (c : CtxId) : Registry → Registry
  | [] => [(k, c)]
  | p :: t => if p.1 = k then (k, c) :: t else p :: registryInsert k c t

/-- Python `dict.pop(k, None)`: drop the entry with key `k` if present. -/
def registryPop (k : RegKey) : Registry → Registry
  | [] => []
  | p :: t => if p.1 = k then t else p :: registryPop k t

/-- Point update of the context heap. -/
def heapUpdate (h : CtxId → CtxData) (c : CtxId) (d : CtxData) : CtxId → CtxData :=
  fun x => if x = c then d else h x

/-- Identity of `_default_context`, the first context object allocated. -/
def defaultContextId : CtxId := 0

/-- Module-global state plus the thread-local handler of the thread under
consideration: the context heap, the allocation counter (fresh object
identities), `_all_contexts`, the active handler `ray._cxt.handler`, and the
ambient client-mode flag toggled by
`_explicitly_enable_client_mode` / `_explicitly_disable_client_mode`. -/
structure World where
  ctxs : CtxId → CtxData
  allocated : Nat
  all_contexts : Registry
  active : CtxId
  client_mode : Bool

/-- Module load state: `_all_contexts = {}`, `_default_context =
_ClientContext()` (identity `0`), the stub handler pointing at the default
context, client mode off. -/
def initWorld : World :=
  { ctxs := fun _ => initCtxData
    allocated := 1
    all_contexts := []
    active := defaultContextId
    client_mode := false }

/-- `RayAPIStub.set_context` (lines 313-319): remember the old handler, then
install the given context, or a newly constructed `_ClientContext()` when
passed `None`; return the old handler. -/
def stubSetContext (w : World) (c : Option CtxId) : CtxId × World :=
  match c with
  | none =>
    (w.active,
      { w with ctxs := heapUpdate w.ctxs w.allocated initCtxData
               active := w.allocated
               allocated := w.allocated + 1 })
  | some c => (w.active, { w with active := c })

/-- `RayAPIStub.is_default` (lines 321-322): identity comparison of the active
handler with `_default_context`. -/
def stubIsDefault (w : World) : Bool :=
  w.active == defaultContextId

/-- `RayAPIStub.is_connected` (lines 351-352). -/
def stubIsConnected (w : World) : Bool :=
  ctxIsConnected (w.ctxs w.active)

/-- Result of `RayAPIStub.connect`. -/
structure StubConnectOut where
  result : Except Err (Option ConnInfo)
  world : World
  rolledBack : Bool

/-- `RayAPIStub.connect` (lines 324-330): copy `_inside_client_test` onto the
active context, run `_ClientContext.connect` on it, and only on a non-raising
return register the handler in `_all_contexts` under its `id`. -/
def stubConnect (w : World) (env : ConnectEnv) (ignore_version inside_test : Bool) :
    StubConnectOut :=
  let a := w.active
  let d0 := { w.ctxs a with inside_client_test := inside_test }
  let out := ctxConnect d0 env ignore_version
  let ctxs1 := heapUpdate w.ctxs a out.ctx
  let cm := if out.enabledClientMode then true else w.client_mode
  match out.result with
  | Except.error e =>
    ⟨Except.error e, { w with ctxs := ctxs1, client_mode := cm }, out.rolledBack⟩
  | Except.ok v =>
    ⟨Except.ok v,
      { w with ctxs := ctxs1
               client_mode := cm
               all_contexts := registryInsert out.ctx.client_id a w.all_contexts },
      out.rolledBack⟩

/-- The loop `for cxt in _all_contexts.values(): cxt.disconnect(...)` (or
`.shutdown(...)`), applied to the heap. -/
def teardownAll (tear : CtxData → CtxData) (reg : Registry) (ctxs : CtxId → CtxData) :
    CtxId → CtxData :=
  reg.foldl (fun h p => heapUpdate h p.2 (tear (h p.2))) ctxs

/-- Common body of `RayAPIStub.disconnect` (lines 332-343) and
`RayAPIStub.shutdown` (lines 361-372), which differ only in the per-context
call `tear`: if the active handler is the default context, tear down every
registered context and rebind the registry to `{}`; otherwise tear down only
the active context.  Then `_all_contexts.pop(self.get_context().id, None)`,
and if the registry is now empty, disable client mode. -/
def stubTeardown (tear : CtxData → CtxData) (w : World) : World :=
  let pair :=
    if w.active = defaultContextId then
      (teardownAll tear w.all_contexts w.ctxs, ([] : Registry))
    else
      (heapUpdate w.ctxs w.active (tear (w.ctxs w.active)), w.all_contexts)
  let ctxs1 := pair.1
  let reg1 := pair.2
  let reg2 := registryPop ((ctxs1 w.active).client_id) reg1
  let cm := if reg2.length = 0 then false else w.client_mode
  { w with ctxs := ctxs1, all_contexts := reg2, client_mode := cm }

/-- `RayAPIStub.disconnect` (lines 332-343). -/
def stubDisconnect (w : World) : World :=
  stubTeardown ctxDisconnect w

/-- `RayAPIStub.shutdown` (lines 361-372). -/
def stubShutdown (w : World) : World :=
  stubTeardown ctxShutdown w

/-- Result of `_ClientContext.init`: the returned `address_info` or raised
exception (the info itself is collaborator data, so only success is tracked),
the context state after the call, and whether
`_explicitly_enable_client_mode()` was invoked by the inner `connect`. -/
structure InitOut where
  result : Except Err Unit
  ctx : CtxData
  enabledClientMode : Bool

/-- `_ClientContext.init` (lines 169-178): raise if an embedded server was
already started; otherwise start the embedded server via the external
collaborator `init_and_serve` (its outcome is `senv`), store the server
handle, and `connect` to it (default arguments, so `ignore_version` is
false).  `_connected_with_init` is set only after the connect returns; on a
connect failure the exception propagates with the server handle already
assigned. -/
def ctxInit (d : CtxData) (senv : Except Err Unit) (env : ConnectEnv) : InitOut :=
  match d.server with
  | some _ => ⟨Except.error .doubleInit, d, false⟩
  | none =>
    match senv with
    | Except.error e => ⟨Except.error e, d, false⟩
    | Except.ok _ =>
      let d1 := { d with server := some () }
      let out := ctxConnect d1 env false
      match out.result with
      | Except.error e => ⟨Except.error e, out.ctx, out.enabledClientMode⟩
      | Except.ok _ =>
        ⟨Except.ok (), { out.ctx with connected_with_init := true },
          out.enabledClientMode⟩

/-- `RayAPIStub.init` (lines 354-359): run `_ClientContext.init` on the active
handler and, only on a non-raising return, register the handler in
`_all_contexts` under its `id`. -/
def stubInit (w : World) (senv : Except Err Unit) (env : ConnectEnv) :
    Except Err Unit × World :=
  let a := w.active
  let out := ctxInit (w.ctxs a) senv env
  let ctxs1 := heapUpdate w.ctxs a out.ctx
  let cm := if out.enabledClientMode then true else w.client_mode
  match out.result with
  | Except.error e =>
    (Except.error e, { w with ctxs := ctxs1, client_mode := cm })
  | Except.ok _ =>
    (Except.ok (),
      { w with ctxs := ctxs1
               client_mode := cm
               all_contexts := registryInsert out.ctx.client_id a w.all_contexts })

/-- The `ManagedContext` guard (lines 207-277): the snapshot of connection
metadata taken from `info_dict` at construction, plus `_context_to_restore`. -/
structure MCtx where
  dashboard_url : Option String
  python_version : String
  ray_version : String
  ray_commit : String
  protocol_version : String
  num_clients : Nat
  context_to_restore : Option CtxId

/-- `ManagedContext.__init__` (lines 219-226). -/
def mkManagedContext (info : ConnInfo) (c : CtxId) : MCtx :=
  { dashboard_url := info.dashboard_url
    python_version := info.python_version
    ray_version := info.ray_version
    ray_commit := info.ray_commit
    protocol_version := info.protocol_version
    num_clients := info.num_clients
    context_to_restore := some c }

/-- `ManagedContext._swap_context` (lines 249-253): if `_context_to_restore`
is set, install it as the active handler via `set_context` and store the
returned previous handler back into `_context_to_restore`. -/
def mcSwapContext (m : MCtx) (w : World) : MCtx × World :=
  match m.context_to_restore with
  | none => (m, w)
  | some c =>
    let pr := stubSetContext w (some c)
    ({ m with context_to_restore := some pr.1 }, pr.2)

/-- Modelled from the spec: `ManagedContext._disconnect_with_context`
(lines 255-277) dispatches to collaborators that are not under `src/`:
`ray.util.client_connect.disconnect` (which the spec describes as the
facade-level disconnect of the active session), and the driver-side
`ray.worker` / `ray.shutdown` branches, which act only on the non-client
driver state and leave the session world unchanged.  Per the spec (section
4.4): when the active context is connected and is the default context or the
force flag is set, perform the facade disconnect; in every other case the
session world is untouched. -/
def disconnectWithContext (force_disconnect : Bool) (w : World) : World :=
  if stubIsConnected w then
    if stubIsDefault w || force_disconnect then stubDisconnect w else w
  else w

/-- `ManagedContext.__enter__` (lines 236-238). -/
def mcEnter (m : MCtx) (w : World) : MCtx × World :=
  mcSwapContext m w

/-- `ManagedContext.__exit__` (lines 240-242); Python runs it on both normal
and exceptional exit of the guarded block. -/
def mcExit (m : MCtx) (w : World) : MCtx × World :=
  let w1 := disconnectWithContext false w
  mcSwapContext m w1

/-- `ManagedContext.disconnect` (lines 244-247). -/
def mcDisconnect (m : MCtx) (w : World) : MCtx × World :=
  let p1 := mcSwapContext m w
  let w2 := disconnectWithContext true p1.2
  mcSwapContext p1.1 w2

/-- The stub-level operations a caller can perform (`set_context`, `connect`,
`init`, `disconnect`, `shutdown`), for the reachability relation used by the
registry-size invariant.  The `connect`/`init` steps assume the transport
collaborator hands out a fresh client id (the UUID the real `Worker`
draws). -/
inductive Reach : World → Prop where
  | init : Reach initWorld
  | setCtxNone {w : World} : Reach w → Reach (stubSetContext w none).2
  | setCtxSome {w : World} {c : CtxId} : Reach w → c < w.allocated →
      Reach (stubSetContext w (some c)).2
  | connect {w : World} {env : ConnectEnv} {iv it : Bool} : Reach w →
      (∀ wk, env.worker = Except.ok wk →
        ∀ c, (w.ctxs c).client_id ≠ some wk.client_id) →
      Reach (stubConnect w env iv it).world
  | initServe {w : World} {senv : Except Err Unit} {env : ConnectEnv} :
      Reach w →
      (∀ wk, env.worker = Except.ok wk →
        ∀ c, (w.ctxs c).client_id ≠ some wk.client_id) →
      Reach (stubInit w senv env).2
  | disconnect {w : World} : Reach w → Reach (stubDisconnect w)
  | shutdown {w : World} : Reach w → Reach (stubShutdown w)

/-- Number of sessions currently holding a transport handle. -/
def countConnected (w : World) : Nat :=
  ((Finset.range w.allocated).filter
    (fun c => ((w.ctxs c).client_worker).isSome = true)).card

/-- Well-formedness of the module state, the inductive invariant behind the
registry-size property: registered contexts are allocated, hold a transport
handle and are keyed by their current `_client_id`; every context holding a
transport handle is registered; client ids are unique; connected contexts have
an id; keys are distinct; unallocated slots are fresh. -/
structure WF (w : World) : Prop where
  unalloc : ∀ c, w.allocated ≤ c → w.ctxs c = initCtxData
  keys : (w.all_contexts.map Prod.fst).Nodup
  regLt : ∀ p ∈ w.all_contexts, p.2 < w.allocated
  regConn : ∀ p ∈ w.all_contexts, ((w.ctxs p.2).client_worker).isSome = true
  regKey : ∀ p ∈ w.all_contexts, p.1 = (w.ctxs p.2).client_id
  connReg : ∀ c, ((w.ctxs c).client_worker).isSome = true →
      ((w.ctxs c).client_id, c) ∈ w.all_contexts
  ids : ∀ c c', c ≠ c' → ∀ s, (w.ctxs c).client_id = some s →
      (w.ctxs c').client_id ≠ some s
  connId : ∀ c, ((w.ctxs c).client_worker).isSome = true →
      (w.ctxs c).client_id ≠ none
  activeLt : w.active < w.allocated

/-! Concrete data used by witnesses and counterexamples. -/

/-- A concrete connected transport handle. -/
def w0 : Worker := { client_id := "w0", connected := true }

/-- A concrete connection-info dictionary. -/
def cinfo0 : ConnInfo :=
  { dashboard_url := none
    python_version := "3.8.10"
    ray_version := "1.8.0"
    ray_commit := "abc123"
    protocol_version := "2021-09-02"
    num_clients := 1 }

/-- A context that connected normally (not via `init`). -/
def dConn : CtxData :=
  { initCtxData with client_worker := some w0, client_id := some "w0"
                     conn_info := some cinfo0, api_worker := some w0 }

/-- A context that connected via `init` (`_connected_with_init` set). -/
def dInit : CtxData :=
  { dConn with connected_with_init := true }

/-- A collaborator environment whose transport construction fails. -/
def envFail : ConnectEnv :=
  { worker := Except.error (.collaborator 7)
    server_init := Except.ok ()
    conn_info := Except.ok cinfo0
    serializers := Except.ok ()
    local_major_minor := "3.8"
    env_override := false }

/-- A collaborator environment in which every step succeeds. -/
def envOk : ConnectEnv :=
  { worker := Except.ok w0
    server_init := Except.ok ()
    conn_info := Except.ok cinfo0
    serializers := Except.ok ()
    local_major_minor := "3.8"
    env_override := false }

/-- A world with one extra allocated, connected, registered context (identity
1) that the active default context can observe in the registry. -/
def wReg : World :=
  { ctxs := fun c => if c = 1 then dConn else initCtxData
    allocated := 2
    all_contexts := [(some "w0", 1)]
    active := defaultContextId
    client_mode := true }

/-- A concrete guard target for the `ManagedContext` witnesses. -/
def mc0 : MCtx := mkManagedContext cinfo0 1

/-- The world after one successful `connect` on the default context. -/
def wConn : World := (stubConnect initWorld envOk false false).world

/-! Theorems. -/

/-- C4: `_check_versions` raises exactly when the peer `python_version` does
not start with the local `major.minor` and no override is set; with
`ignore_version` or the environment override the whole check passes with only
a warning; and a peer version having the local `major.minor` as a prefix
always passes the runtime check (the outcome is then exactly that of the
protocol check). -/
theorem check_versions_python_rule
    (info1 info2 info3 : ConnInfo) (lmm lmm3 : String) (ig env ig3 env3 : Bool)
    (h1 : pyStartsWith info1.python_version lmm = false)
    (hig : ig = false) (henv : env = false)
    (h2 : pyStartsWith info2.python_version lmm = true)
    (h3 : ig3 = true ∨ env3 = true) :
    check_versions info1 lmm ig env = Except.error .pythonMismatch
    ∧ check_versions info2 lmm ig env
        = check_protocol_version info2.protocol_version ig env
    ∧ check_versions info3 lmm3 ig3 env3 = Except.ok () := by
  subst hig henv
  refine ⟨?_, ?_, ?_⟩
  · simp [check_versions, check_python_version, h1, Bind.bind, Except.bind]
  · simp [check_versions, check_python_version, h2, Bind.bind, Except.bind]
  · have hor : (ig3 || env3) = true := by
      rcases h3 with h3 | h3 <;> simp [h3]
    simp [check_versions, check_python_version, check_protocol_version, hor,
      Bind.bind, Except.bind]

/-- C4 witness: local `"3.8"` vs peer `"3.9.0"` raises, vs peer `"3.8.10"`
passes the runtime check, and any mismatch passes under the override. -/
theorem check_versions_python_rule_witness :
    pyStartsWith "3.9.0" "3.8" = false
    ∧ pyStartsWith "3.8.10" "3.8" = true
    ∧ (check_versions { cinfo0 with python_version := "3.9.0" } "3.8" false false
          = Except.error .pythonMismatch
      ∧ check_versions cinfo0 "3.8" false false
          = check_protocol_version cinfo0.protocol_version false false
      ∧ check_versions { cinfo0 with python_version := "3.9.0" } "3.8" true false
          = Except.ok ()) :=
  ⟨by decide, by decide,
    check_versions_python_rule { cinfo0 with python_version := "3.9.0" } cinfo0
      { cinfo0 with python_version := "3.9.0" } "3.8" "3.8" false false true false
      (by decide) rfl rfl (by decide) (Or.inl rfl)⟩

/-- C5: the protocol check errs exactly when the peer string differs from
`"2021-09-02"` and no override is set; it can only produce a protocol
mismatch; and `_check_versions` succeeds exactly when both independent checks
succeed. -/
theorem check_versions_protocol_rule (pv : String) (ig env : Bool)
    (info : ConnInfo) (lmm : String) :
    (check_protocol_version pv ig env = Except.error .protocolMismatch
      ↔ (¬(pv = CURRENT_PROTOCOL_VERSION) ∧ ig = false ∧ env = false))
    ∧ (check_protocol_version pv ig env = Except.ok ()
        ∨ check_protocol_version pv ig env = Except.error .protocolMismatch)
    ∧ (check_versions info lmm ig env = Except.ok ()
      ↔ (check_python_version info.python_version lmm ig env = Except.ok ()
        ∧ check_protocol_version info.protocol_version ig env = Except.ok ())) := by
  refine ⟨?_, ?_, ?_⟩
  · by_cases hpv : CURRENT_PROTOCOL_VERSION = pv <;> cases ig <;> cases env <;>
      first
        | (simp [check_protocol_version, hpv]; tauto)
        | simp [check_protocol_version, hpv]
  · by_cases hpv : CURRENT_PROTOCOL_VERSION = pv <;> cases ig <;> cases env <;>
      simp [check_protocol_version, hpv]
  · cases hpy : check_python_version info.python_version lmm ig env <;>
      simp [check_versions, hpy, Bind.bind, Except.bind]

/-- C5 witness at concrete inputs. -/
theorem check_versions_protocol_rule_witness :
    (check_protocol_version "2021-09-01" false false
        = Except.error .protocolMismatch
      ↔ (¬("2021-09-01" = CURRENT_PROTOCOL_VERSION) ∧ false = false ∧ false = false))
    ∧ (check_protocol_version "2021-09-01" false false = Except.ok ()
        ∨ check_protocol_version "2021-09-01" false false
            = Except.error .protocolMismatch)
    ∧ (check_versions cinfo0 "3.8" false false = Except.ok ()
      ↔ (check_python_version cinfo0.python_version "3.8" false false = Except.ok ()
        ∧ check_protocol_version cinfo0.protocol_version false false
            = Except.ok ())) :=
  check_versions_protocol_rule "2021-09-01" false false cinfo0 "3.8"

/-- C6 counterexample: on a context connected via `init`, a second `connect`
returns `None` (a bare `return`), not the cached connection info. -/
theorem connect_init_returns_none :
    dInit.client_worker = some w0
    ∧ dInit.connected_with_init = true
    ∧ dInit.conn_info = some cinfo0
    ∧ (ctxConnect dInit envOk false).result = Except.ok none
    ∧ (ctxConnect dInit envOk false).result ≠ Except.ok (some cinfo0) := by
  decide

/-- C6 amended: a second `connect` on an already-connected context raises the
already-connected error unless the context was connected via `init`, in which
case it is an idempotent no-op returning `None` (no value) rather than the
cached connection info. -/
theorem connect_already_connected (d1 d2 : CtxData) (env1 env2 : ConnectEnv)
    (iv1 iv2 : Bool) (wk1 wk2 : Worker)
    (hw1 : d1.client_worker = some wk1) (hi1 : d1.connected_with_init = true)
    (hw2 : d2.client_worker = some wk2) (hi2 : d2.connected_with_init = false) :
    ctxConnect d1 env1 iv1 = ⟨Except.ok none, d1, false, false⟩
    ∧ ctxConnect d2 env2 iv2 = ⟨Except.error .alreadyConnected, d2, false, false⟩ := by
  constructor
  · simp [ctxConnect, hw1, hi1]
  · simp [ctxConnect, hw2, hi2]

/-- C6 amended witness. -/
theorem connect_already_connected_witness :
    dInit.client_worker = some w0
    ∧ dConn.client_worker = some w0
    ∧ (ctxConnect dInit envOk true = ⟨Except.ok none, dInit, false, false⟩
      ∧ ctxConnect dConn envOk true
          = ⟨Except.error .alreadyConnected, dConn, false, false⟩) :=
  ⟨rfl, rfl,
    connect_already_connected dInit dConn envOk envOk true true w0 w0 rfl rfl rfl rfl⟩

/-- C7 counterexample: on a disconnected context the attribute `"id"` is not
in the introspection allowlist, yet `__getattr__` returns the stored client id
instead of raising the not-connected error. -/
theorem getattr_id_not_error :
    ctxIsConnected initCtxData = false
    ∧ ("id" : String) ≠ "is_initialized"
    ∧ ("id" : String) ≠ "_internal_kv_initialized"
    ∧ ctxGetattr initCtxData "id" ≠ GetattrResult.notConnectedError := by
  decide

/-- C7 amended: on a disconnected context every attribute access raises the
not-connected error, except the introspection allowlist (`is_initialized`,
`_internal_kv_initialized`), which yields the `lambda: False` thunk, and the
special keys `"id"` and `"worker"`, which return the stored client id and
transport handle. -/
theorem getattr_disconnected_dispatch (d : CtxData) (key : String)
    (hd : ctxIsConnected d = false)
    (h1 : key ≠ "id") (h2 : key ≠ "worker")
    (h3 : key ≠ "is_initialized") (h4 : key ≠ "_internal_kv_initialized") :
    ctxGetattr d key = GetattrResult.notConnectedError
    ∧ ctxGetattr d "is_initialized" = GetattrResult.falseThunk
    ∧ ctxGetattr d "_internal_kv_initialized" = GetattrResult.falseThunk
    ∧ ctxGetattr d "id" = GetattrResult.idVal d.client_id
    ∧ ctxGetattr d "worker" = GetattrResult.workerVal d.client_worker := by
  refine ⟨?_, ?_, ?_, ?_, ?_⟩ <;>
    simp [ctxGetattr, hd, h1, h2, h3, h4]

/-- C7 amended witness. -/
theorem getattr_disconnected_dispatch_witness :
    ctxIsConnected initCtxData = false
    ∧ (ctxGetattr initCtxData "remote" = GetattrResult.notConnectedError
      ∧ ctxGetattr initCtxData "is_initialized" = GetattrResult.falseThunk
      ∧ ctxGetattr initCtxData "_internal_kv_initialized" = GetattrResult.falseThunk
      ∧ ctxGetattr initCtxData "id" = GetattrResult.idVal initCtxData.client_id
      ∧ ctxGetattr initCtxData "worker"
          = GetattrResult.workerVal initCtxData.client_worker) :=
  ⟨rfl, getattr_disconnected_dispatch initCtxData "remote" rfl
    (by decide) (by decide) (by decide) (by decide)⟩

/-- C8 counterexample: `disconnect` on a connected context does not clear the
client id; it is deliberately retained (source comment, lines 25-27). -/
theorem disconnect_keeps_client_id :
    dConn.client_worker.isSome = true
    ∧ dConn.client_id = some "w0"
    ∧ (ctxDisconnect dConn).client_id = some "w0"
    ∧ (ctxDisconnect dConn).client_id ≠ none := by
  decide

/-- C8 amended: `disconnect` is idempotent, a no-op on a Fresh/Disconnected
context, closes the transport handle exactly when one is present, clears the
transport reference and transitions to Disconnected (`is_connected` false);
the client id is retained, not cleared. -/
theorem disconnect_idempotent (d dFresh : CtxData)
    (hf : dFresh.client_worker = none) :
    ctxDisconnect (ctxDisconnect d) = ctxDisconnect d
    ∧ (ctxDisconnect d).client_worker = none
    ∧ ctxIsConnected (ctxDisconnect d) = false
    ∧ (ctxDisconnect d).client_id = d.client_id
    ∧ ctxCloseCalled d = d.client_worker.isSome
    ∧ ctxDisconnect dFresh = dFresh := by
  refine ⟨rfl, rfl, rfl, rfl, rfl, ?_⟩
  cases dFresh
  simp only [ctxDisconnect] at hf ⊢
  simp_all

/-- C8 amended witness. -/
theorem disconnect_idempotent_witness :
    initCtxData.client_worker = none
    ∧ (ctxDisconnect (ctxDisconnect dConn) = ctxDisconnect dConn
      ∧ (ctxDisconnect dConn).client_worker = none
      ∧ ctxIsConnected (ctxDisconnect dConn) = false
      ∧ (ctxDisconnect dConn).client_id = dConn.client_id
      ∧ ctxCloseCalled dConn = dConn.client_worker.isSome
      ∧ ctxDisconnect initCtxData = initCtxData) :=
  ⟨rfl, disconnect_idempotent dConn initCtxData rfl⟩

/-- C10: `set_context(None)` installs a newly constructed, disconnected
context rather than restoring the default: it returns the previous handler,
the new handler is a fresh identity distinct from the default context, and
afterwards `is_default()` and `is_connected()` are both false. -/
theorem set_context_none_installs_fresh (w : World) (h : 0 < w.allocated) :
    (stubSetContext w none).1 = w.active
    ∧ (stubSetContext w none).2.active = w.allocated
    ∧ stubIsDefault (stubSetContext w none).2 = false
    ∧ (stubSetContext w none).2.ctxs ((stubSetContext w none).2.active)
        = initCtxData
    ∧ stubIsConnected (stubSetContext w none).2 = false := by
    refine ⟨rfl, rfl, ?_, ?_, ?_⟩
    · have ha : (stubSetContext w none).2.active = w.allocated := rfl
      simp [stubIsDefault, ha, defaultContextId, beq_eq_false_iff_ne]
      exact Nat.pos_iff_ne_zero.mp h
    · simp [stubSetContext, heapUpdate]
    · simp [stubSetContext, stubIsConnected, heapUpdate, ctxIsConnected, initCtxData]

/-- C10 witness. -/
theorem set_context_none_installs_fresh_witness :
    0 < initWorld.allocated
    ∧ ((stubSetContext initWorld none).1 = initWorld.active
      ∧ (stubSetContext initWorld none).2.active = initWorld.allocated
      ∧ stubIsDefault (stubSetContext initWorld none).2 = false
      ∧ (stubSetContext initWorld none).2.ctxs
          ((stubSetContext initWorld none).2.active) = initCtxData
      ∧ stubIsConnected (stubSetContext initWorld none).2 = false) :=
  ⟨by decide, set_context_none_installs_fresh initWorld (by decide)⟩

/-- The world returned by `stubTeardown` keeps the active handler. -/
theorem stubTeardown_active (tear : CtxData → CtxData) (w : World) :
    (stubTeardown tear w).active = w.active := rfl

/-- `_disconnect_with_context` never changes the active handler. -/
theorem disconnectWithContext_active (f : Bool) (w : World) :
    (disconnectWithContext f w).active = w.active := by
  unfold disconnectWithContext
  split
  · split
    · exact stubTeardown_active ctxDisconnect w
    · rfl
  · rfl

/-- `_swap_context` on a guard holding a restore target `c` installs `c` as
the active handler and stores the previous handler in the guard. -/
theorem mcSwapContext_some (m : MCtx) (w : World) (c : CtxId)
    (h : m.context_to_restore = some c) :
    mcSwapContext m w
      = ({ m with context_to_restore := some w.active }, { w with active := c }) := by
  simp [mcSwapContext, h, stubSetContext]

/-- C3: entering a `ManagedContext` guard swaps the active handler to the
target; exiting restores the handler that was active before entry, whatever
the guarded body did to the world (including raising, since `__exit__` runs on
the exceptional path too); invoking the guard's `disconnect()` inside the
block leaves the guard's restore target unchanged, so a subsequent exit still
restores the pre-entry handler. -/
theorem managed_guard_restores (w wbody wbody2 : World) (m : MCtx) (c : CtxId)
    (h : m.context_to_restore = some c) :
    (mcEnter m w).2.active = c
    ∧ (mcEnter m w).1.context_to_restore = some w.active
    ∧ (mcExit (mcEnter m w).1 wbody).2.active = w.active
    ∧ (mcDisconnect (mcEnter m w).1 wbody).1.context_to_restore = some w.active
    ∧ (mcExit (mcDisconnect (mcEnter m w).1 wbody).1 wbody2).2.active = w.active := by
  refine ⟨?_, ?_, ?_, ?_, ?_⟩ <;>
    simp [mcEnter, mcExit, mcDisconnect, mcSwapContext, stubSetContext, h,
      disconnectWithContext_active]

/-- C3 witness: a concrete guard over context 1 entered from the default
context, with concrete intervening worlds. -/
theorem managed_guard_restores_witness :
    mc0.context_to_restore = some 1
    ∧ ((mcEnter mc0 wReg).2.active = 1
      ∧ (mcEnter mc0 wReg).1.context_to_restore = some wReg.active
      ∧ (mcExit (mcEnter mc0 wReg).1 initWorld).2.active = wReg.active
      ∧ (mcDisconnect (mcEnter mc0 wReg).1 initWorld).1.context_to_restore
          = some wReg.active
      ∧ (mcExit (mcDisconnect (mcEnter mc0 wReg).1 initWorld).1 wReg).2.active
          = wReg.active) :=
  ⟨rfl, managed_guard_restores wReg initWorld wReg mc0 1 rfl⟩

/-- C1: when `connect` on a context without a transport handle fails at any
step after the initial state check, the rollback `disconnect()` is invoked,
the resulting context again holds no transport handle, and no entry has been
added to `_all_contexts`. -/
theorem connect_failure_rollback (w : World) (env : ConnectEnv) (iv it : Bool)
    (e : Err)
    (hfresh : (w.ctxs w.active).client_worker = none)
    (herr : (stubConnect w env iv it).result = Except.error e) :
    (stubConnect w env iv it).rolledBack = true
    ∧ ((stubConnect w env iv it).world.ctxs w.active).client_worker = none
    ∧ (stubConnect w env iv it).world.all_contexts = w.all_contexts := by
  rcases hw : env.worker with e1 | wk
  · simp [stubConnect, ctxConnect, hfresh, hw, heapUpdate, ctxDisconnect]
  · rcases hsi : env.server_init with e2 | u
    · simp [stubConnect, ctxConnect, hfresh, hw, hsi, heapUpdate, ctxDisconnect]
    · rcases hci : env.conn_info with e3 | info
      · simp [stubConnect, ctxConnect, hfresh, hw, hsi, hci, heapUpdate,
          ctxDisconnect]
      · rcases hcv : check_versions info env.local_major_minor iv env.env_override
            with e4 | u2
        · simp [stubConnect, ctxConnect, hfresh, hw, hsi, hci, hcv, heapUpdate,
            ctxDisconnect]
        · rcases hs : env.serializers with e5 | u3
          · simp [stubConnect, ctxConnect, hfresh, hw, hsi, hci, hcv, hs,
              heapUpdate, ctxDisconnect]
          · exfalso
            simp [stubConnect, ctxConnect, hfresh, hw, hsi, hci, hcv, hs] at herr

/-- C1 witness: transport construction fails on the fresh default context. -/
theorem connect_failure_rollback_witness :
    (initWorld.ctxs initWorld.active).client_worker = none
    ∧ (stubConnect initWorld envFail false false).result
        = Except.error (.collaborator 7)
    ∧ ((stubConnect initWorld envFail false false).rolledBack = true
      ∧ ((stubConnect initWorld envFail false false).world.ctxs
          initWorld.active).client_worker = none
      ∧ (stubConnect initWorld envFail false false).world.all_contexts
          = initWorld.all_contexts) :=
  ⟨rfl, rfl,
    connect_failure_rollback initWorld envFail false false (.collaborator 7) rfl rfl⟩

/-- Point lookup of a point update. -/
theorem heapUpdate_same (h : CtxId → CtxData) (c : CtxId) (d : CtxData) :
    heapUpdate h c d c = d := by
  simp [heapUpdate]

/-- Lookup elsewhere is unchanged by a point update. -/
theorem heapUpdate_other (h : CtxId → CtxData) (c : CtxId) (d : CtxData)
    (x : CtxId) (hx : x ≠ c) : heapUpdate h c d x = h x := by
  simp [heapUpdate, hx]

/-- The teardown loop applies `tear` exactly to the contexts that occur as
registry values and leaves every other slot unchanged. -/
theorem teardownAll_eq (tear : CtxData → CtxData)
    (hidem : ∀ d, tear (tear d) = tear d) :
    ∀ (reg : Registry) (ctxs : CtxId → CtxData) (c : CtxId),
    teardownAll tear reg ctxs c
      = if c ∈ reg.map Prod.snd then tear (ctxs c) else ctxs c := by
  intro reg
  induction reg with
  | nil => intro ctxs c; simp [teardownAll]
  | cons p t ih =>
    intro ctxs c
    have hstep : teardownAll tear (p :: t) ctxs
        = teardownAll tear t (heapUpdate ctxs p.2 (tear (ctxs p.2))) := rfl
    rw [hstep, ih]
    by_cases hc : c = p.2
    · subst hc
      by_cases hmem : p.2 ∈ t.map Prod.snd <;>
        simp [hmem, heapUpdate, hidem]
    · by_cases hmem : c ∈ t.map Prod.snd <;>
        simp [hmem, hc, heapUpdate]

/-- `ctxDisconnect` is idempotent (for the teardown loop). -/
theorem ctxDisconnect_idem (d : CtxData) :
    ctxDisconnect (ctxDisconnect d) = ctxDisconnect d := rfl

/-- `ctxShutdown` is idempotent (for the teardown loop). -/
theorem ctxShutdown_idem (d : CtxData) :
    ctxShutdown (ctxShutdown d) = ctxShutdown d := by
  cases d with
  | mk cw cid ci srv cwi ict aw => cases srv <;> rfl

/-- `ctxShutdown` drops the transport handle. -/
theorem ctxShutdown_worker (d : CtxData) :
    (ctxShutdown d).client_worker = none := by
  cases d with
  | mk cw cid ci srv cwi ict aw => cases srv <;> rfl

/-- `ctxShutdown` keeps the client id. -/
theorem ctxShutdown_id (d : CtxData) :
    (ctxShutdown d).client_id = d.client_id := by
  cases d with
  | mk cw cid ci srv cwi ict aw => cases srv <;> rfl

/-- The ambient flag after a teardown is computed from the emptiness of the
resulting registry. -/
theorem stubTeardown_flag (tear : CtxData → CtxData) (w : World) :
    (stubTeardown tear w).client_mode
      = if (stubTeardown tear w).all_contexts.length = 0 then false
        else w.client_mode := rfl

/-- A teardown invoked with the default context active tears down every
registered context, empties the registry, and clears the ambient flag. -/
theorem stubTeardown_default (tear : CtxData → CtxData)
    (hidem : ∀ d, tear (tear d) = tear d)
    (htw : ∀ d, (tear d).client_worker = none)
    (w : World) (hd : w.active = defaultContextId) :
    (stubTeardown tear w).all_contexts = []
    ∧ (stubTeardown tear w).client_mode = false
    ∧ ∀ p ∈ w.all_contexts, ((stubTeardown tear w).ctxs p.2).client_worker = none := by
  have hpair : (if w.active = defaultContextId then
        (teardownAll tear w.all_contexts w.ctxs, ([] : Registry))
      else
        (heapUpdate w.ctxs w.active (tear (w.ctxs w.active)), w.all_contexts))
      = (teardownAll tear w.all_contexts w.ctxs, ([] : Registry)) := by
    rw [if_pos hd]
  unfold stubTeardown
  rw [hpair]
  refine ⟨rfl, rfl, ?_⟩
  intro p hp
  have : p.2 ∈ w.all_contexts.map Prod.snd := List.mem_map_of_mem Prod.snd hp
  simp only [teardownAll_eq tear hidem, this, if_pos]
  exact htw _

/-- C2: with the default context active, `RayAPIStub.disconnect` and
`RayAPIStub.shutdown` tear down every registered context and empty the
registry; and whenever a disconnect/shutdown leaves the registry empty the
ambient client-mode flag is disabled. -/
theorem default_disconnect_broadcast (w wE wE2 : World) (p : RegKey × CtxId)
    (hd : w.active = defaultContextId) (hp : p ∈ w.all_contexts)
    (hE : (stubDisconnect wE).all_contexts = [])
    (hE2 : (stubShutdown wE2).all_contexts = []) :
    (stubDisconnect w).all_contexts = []
    ∧ ((stubDisconnect w).ctxs p.2).client_worker = none
    ∧ (stubDisconnect w).client_mode = false
    ∧ (stubShutdown w).all_contexts = []
    ∧ ((stubShutdown w).ctxs p.2).client_worker = none
    ∧ (stubShutdown w).client_mode = false
    ∧ (stubDisconnect wE).client_mode = false
    ∧ (stubShutdown wE2).client_mode = false := by
  have h1 := stubTeardown_default ctxDisconnect ctxDisconnect_idem
    (fun d => rfl) w hd
  have h2 := stubTeardown_default ctxShutdown ctxShutdown_idem
    ctxShutdown_worker w hd
  refine ⟨h1.1, h1.2.2 p hp, h1.2.1, h2.1, h2.2.2 p hp, h2.2.1, ?_, ?_⟩
  · simp only [stubDisconnect] at hE ⊢
    rw [stubTeardown_flag ctxDisconnect wE, hE]
    rfl
  · simp only [stubShutdown] at hE2 ⊢
    rw [stubTeardown_flag ctxShutdown wE2, hE2]
    rfl

/-- C2 witness: a world with one registered non-default context, torn down
from the default context; the flag clause instantiated at the fresh world. -/
theorem default_disconnect_broadcast_witness :
    wReg.active = defaultContextId
    ∧ (some "w0", 1) ∈ wReg.all_contexts
    ∧ (stubDisconnect initWorld).all_contexts = []
    ∧ ((stubDisconnect wReg).all_contexts = []
      ∧ ((stubDisconnect wReg).ctxs 1).client_worker = none
      ∧ (stubDisconnect wReg).client_mode = false
      ∧ (stubShutdown wReg).all_contexts = []
      ∧ ((stubShutdown wReg).ctxs 1).client_worker = none
      ∧ (stubShutdown wReg).client_mode = false
      ∧ (stubDisconnect initWorld).client_mode = false
      ∧ (stubShutdown initWorld).client_mode = false) :=
  ⟨rfl, by decide, rfl,
    default_disconnect_broadcast wReg initWorld initWorld (some "w0", 1)
      rfl (by decide) rfl rfl⟩

/-- Dict assignment with a key absent from the registry appends the entry. -/
theorem registryInsert_of_not_mem_keys (k : RegKey) (c : CtxId) :
    ∀ (reg : Registry), (∀ p ∈ reg, p.1 ≠ k) →
    registryInsert k c reg = reg ++ [(k, c)] := by
  intro reg
  induction reg with
  | nil => intro _; rfl
  | cons q t ih =>
    intro hk
    have hq : q.1 ≠ k := hk q (List.mem_cons_self q t)
    simp only [registryInsert, if_neg hq, List.cons_append, List.cons.injEq,
      true_and]
    exact ih (fun p hp => hk p (List.mem_cons_of_mem q hp))

/-- Dict assignment of an entry already present (same key, same value) leaves
the registry unchanged, given distinct keys. -/
theorem registryInsert_self (k : RegKey) (c : CtxId) :
    ∀ (reg : Registry), (reg.map Prod.fst).Nodup → (k, c) ∈ reg →
    registryInsert k c reg = reg := by
  intro reg
  induction reg with
  | nil => intro _ hm; cases hm
  | cons q t ih =>
    intro hnd hm
    rw [List.map_cons] at hnd
    have hhead := (List.nodup_cons.mp hnd).1
    have htail := (List.nodup_cons.mp hnd).2
    rcases List.mem_cons.mp hm with hqe | hmt
    · rw [registryInsert, if_pos (by rw [← hqe])]
      rw [← hqe]
    · by_cases hq : q.1 = k
      · exfalso
        have hkmem : k ∈ t.map Prod.fst :=
          List.mem_map.mpr ⟨(k, c), hmt, rfl⟩
        rw [hq] at hhead
        exact hhead hkmem
      · rw [registryInsert, if_neg hq]
        rw [ih htail hmt]

/-- With distinct keys, `pop k` removes exactly the entries whose key is
`k`. -/
theorem mem_registryPop (k : RegKey) :
    ∀ (reg : Registry), (reg.map Prod.fst).Nodup → ∀ q : RegKey × CtxId,
    (q ∈ registryPop k reg ↔ q ∈ reg ∧ q.1 ≠ k) := by
  intro reg
  induction reg with
  | nil => intro _ q; simp [registryPop]
  | cons p t ih =>
    intro hnd q
    rw [List.map_cons] at hnd
    have hnd' := List.nodup_cons.mp hnd
    by_cases hpk : p.1 = k
    · rw [registryPop, if_pos hpk]
      constructor
      · intro hq
        refine ⟨List.mem_cons_of_mem p hq, ?_⟩
        intro hqk
        exact hnd'.1 (by rw [hpk, ← hqk]; exact List.mem_map.mpr ⟨q, hq, rfl⟩)
      · rintro ⟨hq, hqk⟩
        rcases List.mem_cons.mp hq with rfl | hqt
        · exact absurd hpk hqk
        · exact hqt
    · rw [registryPop, if_neg hpk]
      constructor
      · intro hq
        rcases List.mem_cons.mp hq with rfl | hqt
        · exact ⟨List.mem_cons_self q t, hpk⟩
        · have := (ih hnd'.2 q).mp hqt
          exact ⟨List.mem_cons_of_mem p this.1, this.2⟩
      · rintro ⟨hq, hqk⟩
        rcases List.mem_cons.mp hq with rfl | hqt
        · exact List.mem_cons_self q _
        · exact List.mem_cons_of_mem p ((ih hnd'.2 q).mpr ⟨hqt, hqk⟩)

/-- `pop` yields a sublist of the registry. -/
theorem registryPop_sublist (k : RegKey) :
    ∀ reg : Registry, List.Sublist (registryPop k reg) reg := by
  intro reg
  induction reg with
  | nil => exact List.Sublist.refl []
  | cons p t ih =>
    by_cases hpk : p.1 = k
    · rw [registryPop, if_pos hpk]
      exact List.sublist_cons_self p t
    · rw [registryPop, if_neg hpk]
      exact List.Sublist.cons₂ p ih

/-- With distinct keys, entries are determined by their key. -/
theorem eq_of_keys_nodup :
    ∀ (reg : Registry), (reg.map Prod.fst).Nodup →
    ∀ p ∈ reg, ∀ q ∈ reg, p.1 = q.1 → p = q := by
  intro reg
  induction reg with
  | nil => intro _ p hp; cases hp
  | cons r t ih =>
    intro hnd p hp q hq hpq
    rw [List.map_cons] at hnd
    have hnd' := List.nodup_cons.mp hnd
    rcases List.mem_cons.mp hp with rfl | hpt
    · rcases List.mem_cons.mp hq with rfl | hqt
      · rfl
      · exact absurd (by rw [hpq]; exact List.mem_map.mpr ⟨q, hqt, rfl⟩) hnd'.1
    · rcases List.mem_cons.mp hq with rfl | hqt
      · exact absurd (by rw [← hpq]; exact List.mem_map.mpr ⟨p, hpt, rfl⟩) hnd'.1
      · exact ih hnd'.2 p hpt q hqt hpq

/-- The initial world is well-formed. -/
theorem wf_init : WF initWorld := by
  refine ⟨?_, ?_, ?_, ?_, ?_, ?_, ?_, ?_, ?_⟩
  · intro c _; rfl
  · exact List.nodup_nil
  · intro p hp; cases hp
  · intro p hp; cases hp
  · intro p hp; cases hp
  · intro c hc; simp [initWorld, initCtxData] at hc
  · intro c c' _ s hs; simp [initWorld, initCtxData] at hs
  · intro c hc; simp [initWorld, initCtxData] at hc
  · decide

/-- Transfer of well-formedness along a world change that keeps the registry,
the allocation bound, the active handler, the transport and id fields of every
slot, and the unallocated slots. -/
theorem wf_congr (w : World) (h : WF w) (w' : World)
    (halloc : w'.allocated = w.allocated)
    (hreg : w'.all_contexts = w.all_contexts)
    (hactive : w'.active = w.active)
    (hcw : ∀ x, (w'.ctxs x).client_worker = (w.ctxs x).client_worker)
    (hid : ∀ x, (w'.ctxs x).client_id = (w.ctxs x).client_id)
    (hun : ∀ x, w'.allocated ≤ x → w'.ctxs x = w.ctxs x) :
    WF w' := by
  refine ⟨?_, ?_, ?_, ?_, ?_, ?_, ?_, ?_, ?_⟩
  · intro c hc
    rw [hun c hc]
    exact h.unalloc c (by rw [← halloc]; exact hc)
  · rw [hreg]; exact h.keys
  · intro p hp; rw [halloc]; exact h.regLt p (by rw [← hreg]; exact hp)
  · intro p hp; rw [hcw]; exact h.regConn p (by rw [← hreg]; exact hp)
  · intro p hp; rw [hid]; exact h.regKey p (by rw [← hreg]; exact hp)
  · intro c hc
    rw [hid, hreg]
    exact h.connReg c (by rw [← hcw]; exact hc)
  · intro c c' hne s hs
    rw [hid]
    exact h.ids c c' hne s (by rw [← hid]; exact hs)
  · intro c hc
    rw [hid]
    exact h.connId c (by rw [← hcw]; exact hc)
  · rw [halloc, hactive]; exact h.activeLt

/-- `set_context(None)` preserves well-formedness. -/
theorem wf_setCtxNone (w : World) (h : WF w) : WF (stubSetContext w none).2 := by
  have hc : (stubSetContext w none).2.ctxs = heapUpdate w.ctxs w.allocated initCtxData := rfl
  refine ⟨?_, h.keys, ?_, ?_, ?_, ?_, ?_, ?_, ?_⟩
  · intro c hcge
    have halloc2 : (stubSetContext w none).2.allocated = w.allocated + 1 := rfl
    rw [halloc2] at hcge
    have hne : c ≠ w.allocated := by omega
    rw [hc, heapUpdate_other _ _ _ _ hne]
    exact h.unalloc c (by omega)
  · intro p hp
    have := h.regLt p hp
    have halloc2 : (stubSetContext w none).2.allocated = w.allocated + 1 := rfl
    rw [halloc2]
    exact Nat.lt_succ_of_lt this
  · intro p hp
    have hne : p.2 ≠ w.allocated := Nat.ne_of_lt (h.regLt p hp)
    rw [hc, heapUpdate_other _ _ _ _ hne]
    exact h.regConn p hp
  · intro p hp
    have hne : p.2 ≠ w.allocated := Nat.ne_of_lt (h.regLt p hp)
    rw [hc, heapUpdate_other _ _ _ _ hne]
    exact h.regKey p hp
  · intro c hcc
    by_cases hce : c = w.allocated
    · rw [hc, hce, heapUpdate_same] at hcc
      simp [initCtxData] at hcc
    · rw [hc, heapUpdate_other _ _ _ _ hce] at hcc ⊢
      exact h.connReg c hcc
  · intro c c' hne s hs
    by_cases hce : c = w.allocated
    · rw [hc, hce, heapUpdate_same] at hs
      simp [initCtxData] at hs
    · rw [hc, heapUpdate_other _ _ _ _ hce] at hs
      by_cases hce' : c' = w.allocated
      · rw [hc, hce', heapUpdate_same]
        simp [initCtxData]
      · rw [hc, heapUpdate_other _ _ _ _ hce']
        exact h.ids c c' hne s hs
  · intro c hcc
    by_cases hce : c = w.allocated
    · rw [hc, hce, heapUpdate_same] at hcc
      simp [initCtxData] at hcc
    · rw [hc, heapUpdate_other _ _ _ _ hce] at hcc ⊢
      exact h.connId c hcc
  · simp [stubSetContext]

/-- `set_context` with an existing context preserves well-formedness. -/
theorem wf_setCtxSome (w : World) (c : CtxId) (h : WF w) (hcl : c < w.allocated) :
    WF (stubSetContext w (some c)).2 := by
  refine ⟨h.unalloc, h.keys, h.regLt, h.regConn, h.regKey, h.connReg, h.ids,
    h.connId, hcl⟩

/-- Writing a context whose id is a freshly generated worker id keeps the
stored client ids pairwise distinct. -/
theorem heap_ids_fresh (w : World) (h : WF w) (dnew : CtxData) (wk : Worker)
    (hfr2 : ∀ c, (w.ctxs c).client_id ≠ some wk.client_id)
    (hid : dnew.client_id = some wk.client_id) :
    ∀ c c', c ≠ c' → ∀ s,
      ((heapUpdate w.ctxs w.active dnew) c).client_id = some s →
      ((heapUpdate w.ctxs w.active dnew) c').client_id ≠ some s := by
  intro c c' hne s hs
  by_cases hce : c = w.active
  · rw [hce, heapUpdate_same, hid] at hs
    injection hs with hs2
    have hce' : c' ≠ w.active := by rw [← hce]; exact fun hh => hne hh.symm
    rw [heapUpdate_other _ _ _ _ hce', ← hs2]
    exact hfr2 c'
  · rw [heapUpdate_other _ _ _ _ hce] at hs
    by_cases hce' : c' = w.active
    · rw [hce', heapUpdate_same, hid]
      intro hcontra
      injection hcontra with hcontra2
      exact hfr2 c (by rw [hcontra2]; exact hs)
    · rw [heapUpdate_other _ _ _ _ hce']
      exact h.ids c c' hne s hs

/-- No registered context is the (disconnected) active context. -/
theorem not_registered_of_disconnected (w : World) (h : WF w)
    (hold : (w.ctxs w.active).client_worker = none) :
    ∀ p ∈ w.all_contexts, p.2 ≠ w.active := by
  intro p hp hpa
  have := h.regConn p hp
  rw [hpa, hold] at this
  simp at this

/-- Well-formedness is preserved by a failed fresh `connect`: the active slot
is overwritten by a rolled-back context that carries the fresh worker id but
no transport handle, and the registry is untouched. -/
theorem wf_fresh_update (w : World) (h : WF w) (dnew : CtxData) (wk : Worker)
    (w' : World)
    (halloc : w'.allocated = w.allocated)
    (hreg : w'.all_contexts = w.all_contexts)
    (hactive : w'.active = w.active)
    (hctxs : w'.ctxs = heapUpdate w.ctxs w.active dnew)
    (hfr2 : ∀ c, (w.ctxs c).client_id ≠ some wk.client_id)
    (hid : dnew.client_id = some wk.client_id)
    (hcwn : dnew.client_worker = none)
    (hold : (w.ctxs w.active).client_worker = none) :
    WF w' := by
  have hnotreg := not_registered_of_disconnected w h hold
  refine ⟨?_, ?_, ?_, ?_, ?_, ?_, ?_, ?_, ?_⟩
  · intro c hcge
    rw [halloc] at hcge
    have hne : c ≠ w.active := by
      intro hh; rw [hh] at hcge; exact absurd h.activeLt (Nat.not_lt.mpr hcge)
    rw [hctxs, heapUpdate_other _ _ _ _ hne]
    exact h.unalloc c hcge
  · rw [hreg]; exact h.keys
  · intro p hp; rw [halloc]; exact h.regLt p (hreg ▸ hp)
  · intro p hp
    have hp' : p ∈ w.all_contexts := hreg ▸ hp
    rw [hctxs, heapUpdate_other _ _ _ _ (hnotreg p hp')]
    exact h.regConn p hp'
  · intro p hp
    have hp' : p ∈ w.all_contexts := hreg ▸ hp
    rw [hctxs, heapUpdate_other _ _ _ _ (hnotreg p hp')]
    exact h.regKey p hp'
  · intro c hcc
    rw [hctxs] at hcc ⊢
    by_cases hce : c = w.active
    · rw [hce, heapUpdate_same] at hcc
      rw [hcwn] at hcc
      simp at hcc
    · rw [heapUpdate_other _ _ _ _ hce] at hcc ⊢
      rw [hreg]
      exact h.connReg c hcc
  · intro c c' hne s hs
    rw [hctxs] at hs ⊢
    exact heap_ids_fresh w h dnew wk hfr2 hid c c' hne s hs
  · intro c hcc
    rw [hctxs] at hcc ⊢
    by_cases hce : c = w.active
    · rw [hce, heapUpdate_same, hid]
      simp
    · rw [heapUpdate_other _ _ _ _ hce] at hcc ⊢
      exact h.connId c hcc
  · rw [halloc, hactive]; exact h.activeLt

/-- Well-formedness is preserved by a successful fresh `connect`: the active
slot now holds a transport handle under a freshly generated worker id and is
registered under that id. -/
theorem wf_fresh_connectOk (w : World) (h : WF w) (dnew : CtxData) (wk : Worker)
    (w' : World)
    (halloc : w'.allocated = w.allocated)
    (hreg : w'.all_contexts
        = registryInsert dnew.client_id w.active w.all_contexts)
    (hactive : w'.active = w.active)
    (hctxs : w'.ctxs = heapUpdate w.ctxs w.active dnew)
    (hfr2 : ∀ c, (w.ctxs c).client_id ≠ some wk.client_id)
    (hid : dnew.client_id = some wk.client_id)
    (hcww : (dnew.client_worker).isSome = true)
    (hold : (w.ctxs w.active).client_worker = none) :
    WF w' := by
  have hnotreg := not_registered_of_disconnected w h hold
  have hkey : ∀ p ∈ w.all_contexts, p.1 ≠ dnew.client_id := by
    intro p hp hcontra
    rw [h.regKey p hp, hid] at hcontra
    exact hfr2 p.2 hcontra
  have happ : registryInsert dnew.client_id w.active w.all_contexts
      = w.all_contexts ++ [(dnew.client_id, w.active)] :=
    registryInsert_of_not_mem_keys _ _ _ hkey
  have hregapp : w'.all_contexts
      = w.all_contexts ++ [(dnew.client_id, w.active)] := by rw [hreg, happ]
  refine ⟨?_, ?_, ?_, ?_, ?_, ?_, ?_, ?_, ?_⟩
  · intro c hcge
    rw [halloc] at hcge
    have hne : c ≠ w.active := by
      intro hh; rw [hh] at hcge; exact absurd h.activeLt (Nat.not_lt.mpr hcge)
    rw [hctxs, heapUpdate_other _ _ _ _ hne]
    exact h.unalloc c hcge
  · rw [hregapp, List.map_append, List.nodup_append]
    refine ⟨h.keys, by simp, ?_⟩
    intro a ha hb
    simp only [List.map_cons, List.map_nil, List.mem_singleton] at hb
    rcases List.mem_map.mp ha with ⟨p, hp, rfl⟩
    exact hkey p hp hb
  · intro p hp
    rw [hregapp] at hp
    rcases List.mem_append.mp hp with hp1 | hp2
    · rw [halloc]; exact h.regLt p hp1
    · rw [List.mem_singleton] at hp2
      rw [hp2, halloc]
      exact h.activeLt
  · intro p hp
    rw [hregapp] at hp
    rcases List.mem_append.mp hp with hp1 | hp2
    · rw [hctxs, heapUpdate_other _ _ _ _ (hnotreg p hp1)]
      exact h.regConn p hp1
    · rw [List.mem_singleton] at hp2
      rw [hp2, hctxs]
      simp only [heapUpdate_same]
      exact hcww
  · intro p hp
    rw [hregapp] at hp
    rcases List.mem_append.mp hp with hp1 | hp2
    · rw [hctxs, heapUpdate_other _ _ _ _ (hnotreg p hp1)]
      exact h.regKey p hp1
    · rw [List.mem_singleton] at hp2
      rw [hp2, hctxs]
      simp only [heapUpdate_same]
  · intro c hcc
    rw [hctxs] at hcc ⊢
    rw [hregapp]
    by_cases hce : c = w.active
    · rw [hce, heapUpdate_same]
      exact List.mem_append_right _ (by simp)
    · rw [heapUpdate_other _ _ _ _ hce] at hcc ⊢
      exact List.mem_append_left _ (h.connReg c hcc)
  · intro c c' hne s hs
    rw [hctxs] at hs ⊢
    exact heap_ids_fresh w h dnew wk hfr2 hid c c' hne s hs
  · intro c hcc
    rw [hctxs] at hcc ⊢
    by_cases hce : c = w.active
    · rw [hce, heapUpdate_same, hid]
      simp
    · rw [heapUpdate_other _ _ _ _ hce] at hcc ⊢
      exact h.connId c hcc
  · rw [halloc, hactive]; exact h.activeLt

/-- `RayAPIStub.connect` preserves well-formedness, assuming the transport
collaborator generates a fresh client id (the UUID the real `Worker`
draws). -/
theorem wf_connect (w : World) (env : ConnectEnv) (iv it : Bool) (h : WF w)
    (hfr : ∀ wk, env.worker = Except.ok wk →
      ∀ c, (w.ctxs c).client_id ≠ some wk.client_id) :
    WF (stubConnect w env iv it).world := by
  cases hcw : (w.ctxs w.active).client_worker with
  | some wk0 =>
    have hconn : ((w.ctxs w.active).client_worker).isSome = true := by
      rw [hcw]; rfl
    have hmem := h.connReg w.active hconn
    by_cases hcwi : (w.ctxs w.active).connected_with_init = true
    · have hins : registryInsert (w.ctxs w.active).client_id w.active
          w.all_contexts = w.all_contexts :=
        registryInsert_self _ _ _ h.keys hmem
      refine wf_congr w h _ ?_ ?_ ?_ ?_ ?_ ?_
      · simp [stubConnect, ctxConnect, hcw, hcwi]
      · simp [stubConnect, ctxConnect, hcw, hcwi, hins]
      · simp [stubConnect, ctxConnect, hcw, hcwi]
      · intro x
        by_cases hx : x = w.active <;>
          simp [stubConnect, ctxConnect, hcw, hcwi, heapUpdate, hx]
      · intro x
        by_cases hx : x = w.active <;>
          simp [stubConnect, ctxConnect, hcw, hcwi, heapUpdate, hx]
      · intro x hx
        have halloc : (stubConnect w env iv it).world.allocated = w.allocated := by
          simp [stubConnect, ctxConnect, hcw, hcwi]
        rw [halloc] at hx
        have hxa : x ≠ w.active := by
          intro hh; rw [hh] at hx; exact absurd h.activeLt (Nat.not_lt.mpr hx)
        simp [stubConnect, ctxConnect, hcw, hcwi, heapUpdate, hxa]
    · refine wf_congr w h _ ?_ ?_ ?_ ?_ ?_ ?_
      · simp [stubConnect, ctxConnect, hcw, hcwi]
      · simp [stubConnect, ctxConnect, hcw, hcwi]
      · simp [stubConnect, ctxConnect, hcw, hcwi]
      · intro x
        by_cases hx : x = w.active <;>
          simp [stubConnect, ctxConnect, hcw, hcwi, heapUpdate, hx]
      · intro x
        by_cases hx : x = w.active <;>
          simp [stubConnect, ctxConnect, hcw, hcwi, heapUpdate, hx]
      · intro x hx
        have halloc : (stubConnect w env iv it).world.allocated = w.allocated := by
          simp [stubConnect, ctxConnect, hcw, hcwi]
        rw [halloc] at hx
        have hxa : x ≠ w.active := by
          intro hh; rw [hh] at hx; exact absurd h.activeLt (Nat.not_lt.mpr hx)
        simp [stubConnect, ctxConnect, hcw, hcwi, heapUpdate, hxa]
  | none =>
    cases hw : env.worker with
    | error e =>
      refine wf_congr w h _ ?_ ?_ ?_ ?_ ?_ ?_
      · simp [stubConnect, ctxConnect, hcw, hw]
      · simp [stubConnect, ctxConnect, hcw, hw]
      · simp [stubConnect, ctxConnect, hcw, hw]
      · intro x
        by_cases hx : x = w.active <;>
          simp [stubConnect, ctxConnect, hcw, hw, heapUpdate, hx, ctxDisconnect]
      · intro x
        by_cases hx : x = w.active <;>
          simp [stubConnect, ctxConnect, hcw, hw, heapUpdate, hx, ctxDisconnect]
      · intro x hx
        have halloc : (stubConnect w env iv it).world.allocated = w.allocated := by
          simp [stubConnect, ctxConnect, hcw, hw]
        rw [halloc] at hx
        have hxa : x ≠ w.active := by
          intro hh; rw [hh] at hx; exact absurd h.activeLt (Nat.not_lt.mpr hx)
        simp [stubConnect, ctxConnect, hcw, hw, heapUpdate, hxa, ctxDisconnect]
    | ok wk =>
      have hfr2 := hfr wk hw
      cases hsi : env.server_init with
      | error e2 =>
        refine wf_fresh_update w h
          (ctxDisconnect { { w.ctxs w.active with inside_client_test := it } with client_worker := some wk, client_id := some wk.client_id, api_worker := some wk }) wk _ ?_ ?_ ?_ ?_ hfr2 ?_ ?_ hcw
        · simp [stubConnect, ctxConnect, hcw, hw, hsi]
        · simp [stubConnect, ctxConnect, hcw, hw, hsi]
        · simp [stubConnect, ctxConnect, hcw, hw, hsi]
        · simp [stubConnect, ctxConnect, hcw, hw, hsi, ctxDisconnect, heapUpdate]
        · rfl
        · rfl
      | ok u =>
        cases hci : env.conn_info with
        | error e3 =>
          refine wf_fresh_update w h
            (ctxDisconnect { { w.ctxs w.active with inside_client_test := it } with client_worker := some wk, client_id := some wk.client_id, api_worker := some wk }) wk _ ?_ ?_ ?_ ?_ hfr2 ?_ ?_ hcw
          · simp [stubConnect, ctxConnect, hcw, hw, hsi, hci]
          · simp [stubConnect, ctxConnect, hcw, hw, hsi, hci]
          · simp [stubConnect, ctxConnect, hcw, hw, hsi, hci]
          · simp [stubConnect, ctxConnect, hcw, hw, hsi, hci, ctxDisconnect,
              heapUpdate]
          · rfl
          · rfl
        | ok info =>
          cases hcv : check_versions info env.local_major_minor iv
              env.env_override with
          | error ve =>
            refine wf_fresh_update w h
              (ctxDisconnect { { { w.ctxs w.active with inside_client_test := it } with client_worker := some wk, client_id := some wk.client_id, api_worker := some wk } with conn_info := some info }) wk _ ?_ ?_ ?_ ?_ hfr2 ?_ ?_ hcw
            · simp [stubConnect, ctxConnect, hcw, hw, hsi, hci, hcv]
            · simp [stubConnect, ctxConnect, hcw, hw, hsi, hci, hcv]
            · simp [stubConnect, ctxConnect, hcw, hw, hsi, hci, hcv]
            · simp [stubConnect, ctxConnect, hcw, hw, hsi, hci, hcv,
                ctxDisconnect, heapUpdate]
            · rfl
            · rfl
          | ok u2 =>
            cases hs : env.serializers with
            | error e5 =>
              refine wf_fresh_update w h
                (ctxDisconnect { { { w.ctxs w.active with inside_client_test := it } with client_worker := some wk, client_id := some wk.client_id, api_worker := some wk } with conn_info := some info }) wk _ ?_ ?_ ?_ ?_ hfr2 ?_ ?_ hcw
              · simp [stubConnect, ctxConnect, hcw, hw, hsi, hci, hcv, hs]
              · simp [stubConnect, ctxConnect, hcw, hw, hsi, hci, hcv, hs]
              · simp [stubConnect, ctxConnect, hcw, hw, hsi, hci, hcv, hs]
              · simp [stubConnect, ctxConnect, hcw, hw, hsi, hci, hcv, hs,
                  ctxDisconnect, heapUpdate]
              · rfl
              · rfl
            | ok u3 =>
              refine wf_fresh_connectOk w h
                { { { w.ctxs w.active with inside_client_test := it } with client_worker := some wk, client_id := some wk.client_id, api_worker := some wk } with conn_info := some info } wk _ ?_ ?_ ?_ ?_ hfr2 ?_ ?_ hcw
              · simp [stubConnect, ctxConnect, hcw, hw, hsi, hci, hcv, hs]
              · simp [stubConnect, ctxConnect, hcw, hw, hsi, hci, hcv, hs]
              · simp [stubConnect, ctxConnect, hcw, hw, hsi, hci, hcv, hs]
              · simp [stubConnect, ctxConnect, hcw, hw, hsi, hci, hcv, hs,
                  heapUpdate]
              · rfl
              · rfl

/-- Both teardown stubs preserve well-formedness. -/
theorem wf_teardown (tear : CtxData → CtxData)
    (hidem : ∀ d, tear (tear d) = tear d)
    (htw : ∀ d, (tear d).client_worker = none)
    (htid : ∀ d, (tear d).client_id = d.client_id)
    (w : World) (h : WF w) : WF (stubTeardown tear w) := by
  have halloc : (stubTeardown tear w).allocated = w.allocated := rfl
  have hactive : (stubTeardown tear w).active = w.active := rfl
  by_cases hdef : w.active = defaultContextId
  · -- broadcast branch: every registered context torn down, registry emptied
    have hctxs : (stubTeardown tear w).ctxs
        = teardownAll tear w.all_contexts w.ctxs := by
      simp [stubTeardown, hdef]
    have hreg : (stubTeardown tear w).all_contexts = [] := by
      simp [stubTeardown, hdef, registryPop]
    have hchar : ∀ c, (stubTeardown tear w).ctxs c
        = if c ∈ w.all_contexts.map Prod.snd then tear (w.ctxs c)
          else w.ctxs c := by
      intro c
      rw [hctxs]
      exact teardownAll_eq tear hidem _ _ c
    have hidkeep : ∀ c, ((stubTeardown tear w).ctxs c).client_id
        = (w.ctxs c).client_id := by
      intro c
      rw [hchar c]
      by_cases hmem : c ∈ w.all_contexts.map Prod.snd <;> simp [hmem, htid]
    have hnoconn : ∀ c, (((stubTeardown tear w).ctxs c).client_worker).isSome
        = true → False := by
      intro c hcc
      rw [hchar c] at hcc
      by_cases hmem : c ∈ w.all_contexts.map Prod.snd
      · rw [if_pos hmem, htw] at hcc
        simp at hcc
      · rw [if_neg hmem] at hcc
        exact hmem (List.mem_map.mpr ⟨_, h.connReg c hcc, rfl⟩)
    refine ⟨?_, ?_, ?_, ?_, ?_, ?_, ?_, ?_, ?_⟩
    · intro c hcge
      rw [halloc] at hcge
      have hmem : c ∉ w.all_contexts.map Prod.snd := by
        intro hc
        rcases List.mem_map.mp hc with ⟨p, hp, hpc⟩
        have := h.regLt p hp
        rw [hpc] at this
        exact absurd this (Nat.not_lt.mpr hcge)
      rw [hchar c, if_neg hmem]
      exact h.unalloc c hcge
    · rw [hreg]; exact List.nodup_nil
    · intro p hp; rw [hreg] at hp; cases hp
    · intro p hp; rw [hreg] at hp; cases hp
    · intro p hp; rw [hreg] at hp; cases hp
    · intro c hcc; exact (hnoconn c hcc).elim
    · intro c c' hne s hs
      rw [hidkeep] at hs ⊢
      exact h.ids c c' hne s hs
    · intro c hcc; exact (hnoconn c hcc).elim
    · rw [halloc, hactive]; exact h.activeLt
  · -- single-context branch: tear down only the active context, pop its id
    have hctxs : (stubTeardown tear w).ctxs
        = heapUpdate w.ctxs w.active (tear (w.ctxs w.active)) := by
      simp [stubTeardown, hdef]
    have hreg : (stubTeardown tear w).all_contexts
        = registryPop ((w.ctxs w.active).client_id) w.all_contexts := by
      simp [stubTeardown, hdef, heapUpdate, htid]
    have hmemPop := mem_registryPop ((w.ctxs w.active).client_id)
      w.all_contexts h.keys
    have hidkeep : ∀ c, ((stubTeardown tear w).ctxs c).client_id
        = (w.ctxs c).client_id := by
      intro c
      rw [hctxs]
      by_cases hce : c = w.active
      · rw [hce, heapUpdate_same, htid]
      · rw [heapUpdate_other _ _ _ _ hce]
    have hnota : ∀ p ∈ w.all_contexts, p.1 ≠ (w.ctxs w.active).client_id →
        p.2 ≠ w.active := by
      intro p hp hpk hpa
      exact hpk (by rw [h.regKey p hp, hpa])
    refine ⟨?_, ?_, ?_, ?_, ?_, ?_, ?_, ?_, ?_⟩
    · intro c hcge
      rw [halloc] at hcge
      have hne : c ≠ w.active := by
        intro hh; rw [hh] at hcge; exact absurd h.activeLt (Nat.not_lt.mpr hcge)
      rw [hctxs, heapUpdate_other _ _ _ _ hne]
      exact h.unalloc c hcge
    · rw [hreg]
      exact List.Nodup.sublist
        (List.Sublist.map Prod.fst (registryPop_sublist _ _)) h.keys
    · intro p hp
      rw [hreg] at hp
      rw [halloc]
      exact h.regLt p ((hmemPop p).mp hp).1
    · intro p hp
      rw [hreg] at hp
      have hp2 := (hmemPop p).mp hp
      have hpa := hnota p hp2.1 hp2.2
      rw [hctxs, heapUpdate_other _ _ _ _ hpa]
      exact h.regConn p hp2.1
    · intro p hp
      rw [hreg] at hp
      have hp2 := (hmemPop p).mp hp
      have hpa := hnota p hp2.1 hp2.2
      rw [hctxs, heapUpdate_other _ _ _ _ hpa]
      exact h.regKey p hp2.1
    · intro c hcc
      rw [hctxs] at hcc
      by_cases hce : c = w.active
      · rw [hce, heapUpdate_same, htw] at hcc
        simp at hcc
      · rw [heapUpdate_other _ _ _ _ hce] at hcc
        have hkeydiff : (w.ctxs c).client_id ≠ (w.ctxs w.active).client_id := by
          intro hkeq
          cases hoc : (w.ctxs w.active).client_id with
          | none =>
            rw [hoc] at hkeq
            exact (h.connId c hcc) hkeq
          | some s2 =>
            have hne2 : w.active ≠ c := fun hh => hce hh.symm
            have := h.ids w.active c hne2 s2 hoc
            rw [hoc] at hkeq
            exact this hkeq
        rw [hctxs, heapUpdate_other _ _ _ _ hce, hreg]
        exact (hmemPop _).mpr ⟨h.connReg c hcc, hkeydiff⟩
    · intro c c' hne s hs
      rw [hidkeep] at hs ⊢
      exact h.ids c c' hne s hs
    · intro c hcc
      rw [hidkeep]
      rw [hctxs] at hcc
      by_cases hce : c = w.active
      · rw [hce, heapUpdate_same, htw] at hcc
        simp at hcc
      · rw [heapUpdate_other _ _ _ _ hce] at hcc
        exact h.connId c hcc
    · rw [halloc, hactive]; exact h.activeLt


/-- `RayAPIStub.init` preserves well-formedness, under the same fresh-client-id
assumption on the transport collaborator as `connect`. -/
theorem wf_stubInit (w : World) (senv : Except Err Unit) (env : ConnectEnv)
    (h : WF w)
    (hfr : ∀ wk, env.worker = Except.ok wk →
      ∀ c, (w.ctxs c).client_id ≠ some wk.client_id) :
    WF (stubInit w senv env).2 := by
  cases hsrv : (w.ctxs w.active).server with
  | some sv =>
    refine wf_congr w h _ ?_ ?_ ?_ ?_ ?_ ?_
    · simp [stubInit, ctxInit, hsrv]
    · simp [stubInit, ctxInit, hsrv]
    · simp [stubInit, ctxInit, hsrv]
    · intro x
      by_cases hx : x = w.active <;> simp [stubInit, ctxInit, hsrv, heapUpdate, hx]
    · intro x
      by_cases hx : x = w.active <;> simp [stubInit, ctxInit, hsrv, heapUpdate, hx]
    · intro x hx
      by_cases hxa : x = w.active <;>
        simp [stubInit, ctxInit, hsrv, heapUpdate, hxa]
  | none =>
    cases hse : senv with
    | error e0 =>
      refine wf_congr w h _ ?_ ?_ ?_ ?_ ?_ ?_
      · simp [stubInit, ctxInit, hsrv, hse]
      · simp [stubInit, ctxInit, hsrv, hse]
      · simp [stubInit, ctxInit, hsrv, hse]
      · intro x
        by_cases hx : x = w.active <;>
          simp [stubInit, ctxInit, hsrv, hse, heapUpdate, hx]
      · intro x
        by_cases hx : x = w.active <;>
          simp [stubInit, ctxInit, hsrv, hse, heapUpdate, hx]
      · intro x hx
        by_cases hxa : x = w.active <;>
          simp [stubInit, ctxInit, hsrv, hse, heapUpdate, hxa]
    | ok u0 =>
      cases hcw : (w.ctxs w.active).client_worker with
      | some wk0 =>
        by_cases hcwi : (w.ctxs w.active).connected_with_init = true
        · have hconn : ((w.ctxs w.active).client_worker).isSome = true := by
            rw [hcw]; rfl
          have hins : registryInsert (w.ctxs w.active).client_id w.active
              w.all_contexts = w.all_contexts :=
            registryInsert_self _ _ _ h.keys (h.connReg w.active hconn)
          refine wf_congr w h _ ?_ ?_ ?_ ?_ ?_ ?_
          · simp [stubInit, ctxInit, ctxConnect, hsrv, hse, hcw, hcwi]
          · simp [stubInit, ctxInit, ctxConnect, hsrv, hse, hcw, hcwi, hins]
          · simp [stubInit, ctxInit, ctxConnect, hsrv, hse, hcw, hcwi]
          · intro x
            by_cases hx : x = w.active <;>
              simp [stubInit, ctxInit, ctxConnect, hsrv, hse, hcw, hcwi,
                heapUpdate, hx]
          · intro x
            by_cases hx : x = w.active <;>
              simp [stubInit, ctxInit, ctxConnect, hsrv, hse, hcw, hcwi,
                heapUpdate, hx]
          · intro x hx
            have hx2 : w.allocated ≤ x := by
              simpa [stubInit, ctxInit, ctxConnect, hsrv, hse, hcw, hcwi]
                using hx
            have hxa : x ≠ w.active := by
              intro hh; rw [hh] at hx2
              exact absurd h.activeLt (Nat.not_lt.mpr hx2)
            simp [stubInit, ctxInit, ctxConnect, hsrv, hse, hcw, hcwi,
              heapUpdate, hxa]
        · refine wf_congr w h _ ?_ ?_ ?_ ?_ ?_ ?_
          · simp [stubInit, ctxInit, ctxConnect, hsrv, hse, hcw, hcwi]
          · simp [stubInit, ctxInit, ctxConnect, hsrv, hse, hcw, hcwi]
          · simp [stubInit, ctxInit, ctxConnect, hsrv, hse, hcw, hcwi]
          · intro x
            by_cases hx : x = w.active <;>
              simp [stubInit, ctxInit, ctxConnect, hsrv, hse, hcw, hcwi,
                heapUpdate, hx]
          · intro x
            by_cases hx : x = w.active <;>
              simp [stubInit, ctxInit, ctxConnect, hsrv, hse, hcw, hcwi,
                heapUpdate, hx]
          · intro x hx
            have hx2 : w.allocated ≤ x := by
              simpa [stubInit, ctxInit, ctxConnect, hsrv, hse, hcw, hcwi]
                using hx
            have hxa : x ≠ w.active := by
              intro hh; rw [hh] at hx2
              exact absurd h.activeLt (Nat.not_lt.mpr hx2)
            simp [stubInit, ctxInit, ctxConnect, hsrv, hse, hcw, hcwi,
              heapUpdate, hxa]
      | none =>
        cases hw : env.worker with
        | error e =>
          refine wf_congr w h _ ?_ ?_ ?_ ?_ ?_ ?_
          · simp [stubInit, ctxInit, ctxConnect, hsrv, hse, hcw, hw]
          · simp [stubInit, ctxInit, ctxConnect, hsrv, hse, hcw, hw]
          · simp [stubInit, ctxInit, ctxConnect, hsrv, hse, hcw, hw]
          · intro x
            by_cases hx : x = w.active <;>
              simp [stubInit, ctxInit, ctxConnect, hsrv, hse, hcw, hw,
                heapUpdate, hx, ctxDisconnect]
          · intro x
            by_cases hx : x = w.active <;>
              simp [stubInit, ctxInit, ctxConnect, hsrv, hse, hcw, hw,
                heapUpdate, hx, ctxDisconnect]
          · intro x hx
            have hx2 : w.allocated ≤ x := by
              simpa [stubInit, ctxInit, ctxConnect, hsrv, hse, hcw, hw]
                using hx
            have hxa : x ≠ w.active := by
              intro hh; rw [hh] at hx2
              exact absurd h.activeLt (Nat.not_lt.mpr hx2)
            simp [stubInit, ctxInit, ctxConnect, hsrv, hse, hcw, hw,
              heapUpdate, hxa, ctxDisconnect]
        | ok wk =>
          have hfr2 := hfr wk hw
          cases hsi : env.server_init with
          | error e2 =>
            refine wf_fresh_update w h
              (ctxDisconnect { { w.ctxs w.active with server := some () } with client_worker := some wk, client_id := some wk.client_id, api_worker := some wk }) wk _ ?_ ?_ ?_ ?_ hfr2 ?_ ?_ hcw
            · simp [stubInit, ctxInit, ctxConnect, hsrv, hse, hcw, hw, hsi]
            · simp [stubInit, ctxInit, ctxConnect, hsrv, hse, hcw, hw, hsi]
            · simp [stubInit, ctxInit, ctxConnect, hsrv, hse, hcw, hw, hsi]
            · simp [stubInit, ctxInit, ctxConnect, hsrv, hse, hcw, hw, hsi,
                ctxDisconnect, heapUpdate]
            · rfl
            · rfl
          | ok u =>
            cases hci : env.conn_info with
            | error e3 =>
              refine wf_fresh_update w h
                (ctxDisconnect { { w.ctxs w.active with server := some () } with client_worker := some wk, client_id := some wk.client_id, api_worker := some wk }) wk _ ?_ ?_ ?_ ?_ hfr2 ?_ ?_ hcw
              · simp [stubInit, ctxInit, ctxConnect, hsrv, hse, hcw, hw, hsi,
                  hci]
              · simp [stubInit, ctxInit, ctxConnect, hsrv, hse, hcw, hw, hsi,
                  hci]
              · simp [stubInit, ctxInit, ctxConnect, hsrv, hse, hcw, hw, hsi,
                  hci]
              · simp [stubInit, ctxInit, ctxConnect, hsrv, hse, hcw, hw, hsi,
                  hci, ctxDisconnect, heapUpdate]
              · rfl
              · rfl
            | ok info =>
              cases hcv : check_versions info env.local_major_minor false
                  env.env_override with
              | error ve =>
                refine wf_fresh_update w h
                  (ctxDisconnect { { { w.ctxs w.active with server := some () } with client_worker := some wk, client_id := some wk.client_id, api_worker := some wk } with conn_info := some info }) wk _ ?_ ?_ ?_ ?_ hfr2 ?_ ?_ hcw
                · simp [stubInit, ctxInit, ctxConnect, hsrv, hse, hcw, hw, hsi,
                    hci, hcv]
                · simp [stubInit, ctxInit, ctxConnect, hsrv, hse, hcw, hw, hsi,
                    hci, hcv]
                · simp [stubInit, ctxInit, ctxConnect, hsrv, hse, hcw, hw, hsi,
                    hci, hcv]
                · simp [stubInit, ctxInit, ctxConnect, hsrv, hse, hcw, hw, hsi,
                    hci, hcv, ctxDisconnect, heapUpdate]
                · rfl
                · rfl
              | ok u2 =>
                cases hs : env.serializers with
                | error e5 =>
                  refine wf_fresh_update w h
                    (ctxDisconnect { { { w.ctxs w.active with server := some () } with client_worker := some wk, client_id := some wk.client_id, api_worker := some wk } with conn_info := some info }) wk _ ?_ ?_ ?_ ?_ hfr2 ?_ ?_ hcw
                  · simp [stubInit, ctxInit, ctxConnect, hsrv, hse, hcw, hw,
                      hsi, hci, hcv, hs]
                  · simp [stubInit, ctxInit, ctxConnect, hsrv, hse, hcw, hw,
                      hsi, hci, hcv, hs]
                  · simp [stubInit, ctxInit, ctxConnect, hsrv, hse, hcw, hw,
                      hsi, hci, hcv, hs]
                  · simp [stubInit, ctxInit, ctxConnect, hsrv, hse, hcw, hw,
                      hsi, hci, hcv, hs, ctxDisconnect, heapUpdate]
                  · rfl
                  · rfl
                | ok u3 =>
                  refine wf_fresh_connectOk w h
                    { { { { w.ctxs w.active with server := some () } with client_worker := some wk, client_id := some wk.client_id, api_worker := some wk } with conn_info := some info } with connected_with_init := true } wk _ ?_ ?_ ?_ ?_ hfr2 ?_ ?_ hcw
                  · simp [stubInit, ctxInit, ctxConnect, hsrv, hse, hcw, hw,
                      hsi, hci, hcv, hs]
                  · simp [stubInit, ctxInit, ctxConnect, hsrv, hse, hcw, hw,
                      hsi, hci, hcv, hs]
                  · simp [stubInit, ctxInit, ctxConnect, hsrv, hse, hcw, hw,
                      hsi, hci, hcv, hs]
                  · simp [stubInit, ctxInit, ctxConnect, hsrv, hse, hcw, hw,
                      hsi, hci, hcv, hs, heapUpdate]
                  · rfl
                  · rfl

/-- Every reachable world is well-formed. -/
theorem wf_reach : ∀ w : World, Reach w → WF w := by
  intro w h
  induction h with
  | init => exact wf_init
  | setCtxNone hr ih => exact wf_setCtxNone _ ih
  | setCtxSome hr hc ih => exact wf_setCtxSome _ _ ih hc
  | connect hr hfr ih => exact wf_connect _ _ _ _ ih hfr
  | initServe hr hfr ih => exact wf_stubInit _ _ _ ih hfr
  | disconnect hr ih =>
      exact wf_teardown ctxDisconnect ctxDisconnect_idem (fun d => rfl)
        (fun d => rfl) _ ih
  | shutdown hr ih =>
      exact wf_teardown ctxShutdown ctxShutdown_idem ctxShutdown_worker
        ctxShutdown_id _ ih

/-- In a well-formed world the registry size equals the number of sessions
holding a transport handle. -/
theorem wf_length (w : World) (h : WF w) :
    w.all_contexts.length = countConnected w := by
  have hinj : ∀ p ∈ w.all_contexts, ∀ q ∈ w.all_contexts, p.2 = q.2 → p = q := by
    intro p hp q hq h2
    apply eq_of_keys_nodup _ h.keys p hp q hq
    rw [h.regKey p hp, h.regKey q hq, h2]
  have hndreg : w.all_contexts.Nodup := List.Nodup.of_map Prod.fst h.keys
  have hvals : (w.all_contexts.map Prod.snd).Nodup :=
    List.Nodup.map_on hinj hndreg
  have hmem : ∀ c : CtxId, c ∈ w.all_contexts.map Prod.snd ↔
      (c < w.allocated ∧ ((w.ctxs c).client_worker).isSome = true) := by
    intro c
    constructor
    · intro hc
      rcases List.mem_map.mp hc with ⟨p, hp, hpc⟩
      exact ⟨hpc ▸ h.regLt p hp, hpc ▸ h.regConn p hp⟩
    · rintro ⟨hlt, hconn⟩
      exact List.mem_map.mpr ⟨((w.ctxs c).client_id, c), h.connReg c hconn, rfl⟩
  calc w.all_contexts.length
      = (w.all_contexts.map Prod.snd).length := (List.length_map _ _).symm
    _ = (w.all_contexts.map Prod.snd).toFinset.card :=
        (List.toFinset_card_of_nodup hvals).symm
    _ = countConnected w := by
        unfold countConnected
        congr 1
        ext c
        rw [List.mem_toFinset, Finset.mem_filter, Finset.mem_range, hmem c]

/-- C9 counterexample: at module load the registry is empty, so the default
context is not pre-inserted; and after a successful connect registers the
default context, a default-context disconnect removes its entry (the registry
becomes empty) rather than keeping a permanent default entry. -/
theorem default_context_not_preregistered :
    initWorld.all_contexts = []
    ∧ initWorld.ctxs defaultContextId = initCtxData
    ∧ (some "w0", defaultContextId) ∈ wConn.all_contexts
    ∧ ((wConn.ctxs defaultContextId).client_worker).isSome = true
    ∧ (stubDisconnect wConn).all_contexts = [] := by
  decide

/-- C9 amended: the default context exists from process start but is
registered only while connected, like any context; in every world reachable
by the stub-level operations (`set_context`, `connect`, `init`, `disconnect`,
`shutdown`, with fresh worker ids), the registry size equals the number of
sessions currently holding a transport handle, and the default context has a
registry entry exactly while it holds one: while it holds a transport handle
it is registered under its client id, and while it holds none it has no
registry entry at all. -/
theorem registry_size_invariant (w : World) (hw : Reach w) :
    w.all_contexts.length = countConnected w
    ∧ (((w.ctxs defaultContextId).client_worker).isSome = true →
        ((w.ctxs defaultContextId).client_id, defaultContextId)
          ∈ w.all_contexts)
    ∧ (∀ k, (k, defaultContextId) ∈ w.all_contexts →
        ((w.ctxs defaultContextId).client_worker).isSome = true) := by
  have h := wf_reach w hw
  refine ⟨wf_length w h, fun hc => h.connReg defaultContextId hc, ?_⟩
  intro k hk
  exact h.regConn (k, defaultContextId) hk

/-- C9 amended witness: the world after one successful connect is reachable,
has one registered session and one connected session, the connected default
context is registered, and its registry entry certifies the transport
handle. -/
theorem registry_size_invariant_witness :
    Reach wConn
    ∧ wConn.all_contexts.length = countConnected wConn
    ∧ ((wConn.ctxs defaultContextId).client_id, defaultContextId)
        ∈ wConn.all_contexts
    ∧ ((wConn.ctxs defaultContextId).client_worker).isSome = true := by
  have hfr : ∀ wk, envOk.worker = Except.ok wk →
      ∀ c, (initWorld.ctxs c).client_id ≠ some wk.client_id := by
    intro wk hwk c
    simp only [envOk, Except.ok.injEq] at hwk
    rw [← hwk]
    simp [initWorld, initCtxData, w0]
  have hr : Reach wConn := Reach.connect Reach.init hfr
  exact ⟨hr, (registry_size_invariant wConn hr).1,
    (registry_size_invariant wConn hr).2.1 (by decide),
    (registry_size_invariant wConn hr).2.2 (some "w0") (by decide)⟩

end RayClient
